import Mathlib

/-!
Verification of the JGM SmartPlanning frontend panel logic.

The definitions below are a shallow embedding of the client-side logic of the
dashboard ("PCP 360"):

* string trimming and the material-code validator
  (frontend/src/PeggingIaLite.js, isValidMaterial);
* the demo fallback provider (buildDemoResult and its seed dataset
  DEMO_PEGGING_4011835, from the config-based PeggingIaLite variant);
* the per-panel fetch handlers, modelled as a synchronous phase (the state
  mutations performed before the awaited fetch) plus a completion phase (the
  state mutations performed once the fetch settles with a given outcome);
* the render-level classification of each panel's view state (error banner,
  loading box, empty-state message, disabled button).

JavaScript strings are modelled as Lean strings; JavaScript numbers occurring
in the data (coverage days, criticality scores, utilization percentages) are
modelled as rationals; absent/undefined JSON fields are modelled with Option.
-/

/-! ## JavaScript string primitives -/

/-- The character set removed by JavaScript `String.prototype.trim`:
ECMAScript WhiteSpace (TAB, VT, FF, SP, NBSP, ZWNBSP and the Unicode
space-separator category Zs) together with LineTerminator (LF, CR, LS, PS). -/
def isJsWhitespaceChar (c : Char) : Bool :=
  c.val = 0x09 || c.val = 0x0b || c.val = 0x0c || c.val = 0x20 ||
  c.val = 0xa0 || c.val = 0xfeff ||
  c.val = 0x1680 || (0x2000 ≤ c.val && c.val ≤ 0x200a) ||
  c.val = 0x202f || c.val = 0x205f || c.val = 0x3000 ||
  c.val = 0x0a || c.val = 0x0d || c.val = 0x2028 || c.val = 0x2029

/-- JavaScript `trim` on a character list: drop whitespace from both ends. -/
def jsTrimList (cs : List Char) : List Char :=
  ((cs.dropWhile isJsWhitespaceChar).reverse.dropWhile isJsWhitespaceChar).reverse

/-- JavaScript `String.prototype.trim`. -/
def jsTrim (s : String) : String :=
  ⟨jsTrimList s.data⟩

/-- One character of the class `[0-9A-Za-z-]` in the material-code regex. -/
def isMaterialChar (c : Char) : Bool :=
  (decide ('0' ≤ c) && decide (c ≤ '9')) ||
  (decide ('A' ≤ c) && decide (c ≤ 'Z')) ||
  (decide ('a' ≤ c) && decide (c ≤ 'z')) ||
  c = '-'

/-- `regex.test(s)` for the anchored regex `^[0-9A-Za-z-]+$`: the whole string
is a nonempty run of characters of the class. -/
def materialRegexTest (s : String) : Bool :=
  !s.isEmpty && s.data.all isMaterialChar

/-- `isValidMaterial` from frontend/src/PeggingIaLite.js (identical in the
config-based variant): trim, reject the empty string, then test the regex
`^[0-9A-Za-z-]+$` on the trimmed string. -/
def isValidMaterial (code : String) : Bool :=
  let trimmed := jsTrim code
  if trimmed.isEmpty then false
  else materialRegexTest trimmed

/-! ## Claim C3 -/

/-- **C3.** For all strings `s`, `isValidMaterial s` returns true if and only
if `s` trimmed of surrounding whitespace is non-empty and every character of
the trimmed string is a digit, an ASCII letter, or a hyphen.  (The function is
pure by construction in this embedding.) -/
theorem isValidMaterial_iff (s : String) :
    isValidMaterial s = true ↔
      jsTrim s ≠ "" ∧
        ∀ c ∈ (jsTrim s).data,
          ('0' ≤ c ∧ c ≤ '9') ∨ ('A' ≤ c ∧ c ≤ 'Z') ∨
          ('a' ≤ c ∧ c ≤ 'z') ∨ c = '-' := by
  unfold isValidMaterial materialRegexTest
  by_cases hne : jsTrim s = ""
  · have : ("" : String).isEmpty = true := rfl
    simp [hne, this]
  · have he : (jsTrim s).isEmpty = false := by
      rw [Bool.eq_false_iff]
      intro h
      exact hne ((String.isEmpty_iff _).mp h)
    simp only [he, Bool.false_eq_true, if_false, Bool.not_false, Bool.true_and,
      List.all_eq_true]
    constructor
    · intro h
      refine ⟨hne, fun c hc => ?_⟩
      have := h c hc
      unfold isMaterialChar at this
      simp only [Bool.or_eq_true, Bool.and_eq_true, decide_eq_true_eq] at this
      tauto
    · rintro ⟨-, hall⟩ c hc
      have := hall c hc
      unfold isMaterialChar
      simp only [Bool.or_eq_true, Bool.and_eq_true, decide_eq_true_eq]
      tauto

/-! ## Pegging data model and the demo fallback provider -/

/-- One production order of a pegging payload (fields of the demo seed's
order records). -/
structure PeggingOrder where
  ordem : String
  material : String
  data_fim : String
  atraso_dias : Nat
  backlog_qtd : Nat
  criticidade_score : ℚ
deriving DecidableEq, Repr

/-- A pegging payload as consumed by the pegging panel.  `sem_ordens` is
absent from the demo seed (absent JSON fields are falsy), hence defaults
to `false`. -/
structure PeggingResult where
  material : String
  descricao : String
  cobertura_atual_dias : ℚ
  total_ordens_vinculadas : Nat
  ordens_atrasadas : Nat
  maior_atraso_dias : Nat
  ordens : List PeggingOrder
  sem_ordens : Bool := false
deriving DecidableEq, Repr

/-- `DEFAULT_MATERIAL` from the pegging component. -/
def DEFAULT_MATERIAL : String := "4011835-AA"

/-- `DEMO_PEGGING_4011835`: the fixed demo seed dataset of the config-based
pegging component. -/
def DEMO_PEGGING_4011835 : PeggingResult :=
  { material := "4011835-AA"
    descricao := "Conjunto Airbag – Volante"
    cobertura_atual_dias := 52/10
    total_ordens_vinculadas := 5
    ordens_atrasadas := 2
    maior_atraso_dias := 3
    ordens :=
      [ { ordem := "00000045", material := "4011835-AA", data_fim := "2025-12-10",
          atraso_dias := 3, backlog_qtd := 450, criticidade_score := 913/10 },
        { ordem := "00000048", material := "4011835-AA", data_fim := "2025-12-12",
          atraso_dias := 1, backlog_qtd := 220, criticidade_score := 847/10 },
        { ordem := "00000052", material := "4011835-AA", data_fim := "2025-12-18",
          atraso_dias := 0, backlog_qtd := 0, criticidade_score := 721/10 },
        { ordem := "00000057", material := "4011835-AA", data_fim := "2025-12-22",
          atraso_dias := 0, backlog_qtd := 0, criticidade_score := 653/10 },
        { ordem := "00000060", material := "4011835-AA", data_fim := "2025-12-29",
          atraso_dias := 0, backlog_qtd := 0, criticidade_score := 589/10 } ] }

/-- `buildDemoResult` from the config-based pegging component: trim the code;
null for an empty code; the seed unchanged for the canonical code; otherwise
the seed with the code substituted in the top-level material field and in each
order's material field. -/
def buildDemoResult (code : String) : Option PeggingResult :=
  let clean := jsTrim code
  if clean = "" then none
  else if clean = DEFAULT_MATERIAL then some DEMO_PEGGING_4011835
  else
    some { DEMO_PEGGING_4011835 with
            material := clean
            ordens := DEMO_PEGGING_4011835.ordens.map
              fun op => { op with material := clean } }

/-! ## Claim C4 -/

/-- **C4.** `buildDemoResult` returns none when the trimmed identifier is
empty; the seed dataset unchanged when the trimmed identifier is
`"4011835-AA"`; and for any other trimmed identifier a record whose top-level
material and every order's material equal that identifier, all other fields
(descricao, cobertura, order numbers, dates, backlog quantities, criticality
scores) equal to the seed's; the output depends only on the trimmed
identifier, so two calls with the same identifier are structurally equal. -/
theorem buildDemoResult_spec (code : String) :
    (jsTrim code = "" → buildDemoResult code = none) ∧
    (jsTrim code = "4011835-AA" → buildDemoResult code = some DEMO_PEGGING_4011835) ∧
    (jsTrim code ≠ "" → jsTrim code ≠ "4011835-AA" →
      ∃ r, buildDemoResult code = some r ∧
        r.material = jsTrim code ∧
        (∀ op ∈ r.ordens, op.material = jsTrim code) ∧
        r.descricao = DEMO_PEGGING_4011835.descricao ∧
        r.cobertura_atual_dias = DEMO_PEGGING_4011835.cobertura_atual_dias ∧
        r.total_ordens_vinculadas = DEMO_PEGGING_4011835.total_ordens_vinculadas ∧
        r.ordens_atrasadas = DEMO_PEGGING_4011835.ordens_atrasadas ∧
        r.maior_atraso_dias = DEMO_PEGGING_4011835.maior_atraso_dias ∧
        r.ordens.length = DEMO_PEGGING_4011835.ordens.length ∧
        ∀ i (h : i < r.ordens.length) (hs : i < DEMO_PEGGING_4011835.ordens.length),
          (r.ordens.get ⟨i, h⟩).ordem = (DEMO_PEGGING_4011835.ordens.get ⟨i, hs⟩).ordem ∧
          (r.ordens.get ⟨i, h⟩).data_fim = (DEMO_PEGGING_4011835.ordens.get ⟨i, hs⟩).data_fim ∧
          (r.ordens.get ⟨i, h⟩).atraso_dias = (DEMO_PEGGING_4011835.ordens.get ⟨i, hs⟩).atraso_dias ∧
          (r.ordens.get ⟨i, h⟩).backlog_qtd = (DEMO_PEGGING_4011835.ordens.get ⟨i, hs⟩).backlog_qtd ∧
          (r.ordens.get ⟨i, h⟩).criticidade_score
            = (DEMO_PEGGING_4011835.ordens.get ⟨i, hs⟩).criticidade_score) ∧
    (∀ other : String, jsTrim other = jsTrim code →
      buildDemoResult other = buildDemoResult code) := by
  refine ⟨?_, ?_, ?_, ?_⟩
  · intro h
    simp [buildDemoResult, h]
  · intro h
    simp [buildDemoResult, h, DEFAULT_MATERIAL]
  · intro h1 h2
    refine ⟨{ DEMO_PEGGING_4011835 with
              material := jsTrim code
              ordens := DEMO_PEGGING_4011835.ordens.map
                fun op => { op with material := jsTrim code } },
      ?_, rfl, ?_, rfl, rfl, rfl, rfl, rfl, by simp, ?_⟩
    · simp only [buildDemoResult, DEFAULT_MATERIAL]
      rw [if_neg h1, if_neg h2]
    · intro op hop
      simp only [List.mem_map] at hop
      obtain ⟨op0, -, rfl⟩ := hop
      rfl
    · intro i h hs
      simp [List.get_eq_getElem, List.getElem_map]
  · intro other h
    unfold buildDemoResult
    rw [h]

/-- Witness for `buildDemoResult_spec` at concrete identifiers: the empty
identifier, the canonical identifier, and the substituted identifier
`"MAT-7"`. -/
theorem buildDemoResult_spec_witness :
    buildDemoResult "" = none ∧
    buildDemoResult "4011835-AA" = some DEMO_PEGGING_4011835 ∧
    ∃ r, buildDemoResult "MAT-7" = some r ∧ r.material = "MAT-7" := by
  refine ⟨(buildDemoResult_spec "").1 (by decide),
    (buildDemoResult_spec "4011835-AA").2.1 (by decide), ?_⟩
  obtain ⟨r, hr, hm, -⟩ := (buildDemoResult_spec "MAT-7").2.2.1 (by decide) (by decide)
  have ht : jsTrim "MAT-7" = "MAT-7" := by decide
  exact ⟨r, hr, ht ▸ hm⟩

/-! ## Panel state and the two-phase handler model

Each panel's React state is `loading : Bool`, `error : String` (the empty
string is falsy, i.e. "no error"), and a nullable payload.  An async handler
is split at its `await` point into a synchronous phase (the list of state
mutations it performs before the fetch, plus whether a request is issued) and
a completion phase (the list of state mutations it performs once the fetch
settles with a given outcome).  A JavaScript continuation runs to completion,
so each phase's mutations are applied atomically, in order. -/

/-- The React state of one panel: the loading flag, the error message (empty
string means no error) and the nullable payload. -/
structure PanelState (α : Type) where
  loading : Bool
  error : String
  payload : Option α
deriving DecidableEq, Repr

/-- One `setXxx` state-setter call. -/
inductive Mut (α : Type) where
  | setLoading (b : Bool)
  | setError (msg : String)
  | setPayload (p : Option α)
deriving DecidableEq, Repr

/-- Apply one state-setter call. -/
def applyMut {α : Type} (s : PanelState α) : Mut α → PanelState α
  | .setLoading b => { s with loading := b }
  | .setError msg => { s with error := msg }
  | .setPayload p => { s with payload := p }

/-- Apply a list of state-setter calls in order. -/
def applyMuts {α : Type} (s : PanelState α) (ms : List (Mut α)) : PanelState α :=
  ms.foldl applyMut s

/-- How one fetch (together with its `resp.json()` parse) settles: a parsed
JSON body, a non-ok HTTP status, or a transport/parse exception. -/
inductive FetchOutcome (α : Type) where
  | ok (json : α)
  | httpError (status : Nat)
  | transportError
deriving DecidableEq, Repr

/-! ## Planning board panel (frontend/src/PlanningBoardIa.js) -/

/-- A planning-board payload (fields the claims depend on; the series and
order lists are carried opaquely by the renderer and elided). -/
structure BoardData where
  material : String
  cobertura_atual_dias : Option ℚ
  criticidade_ia : Option ℚ
  rupturas_previstas : Nat
  horizonte_semanas : Nat
deriving DecidableEq, Repr

/-- The error message set by `loadBoard` on failure. -/
def boardErrorMsg : String := "Não foi possível carregar o Planning Board IA."

/-- Synchronous phase of `loadBoard(code)`: an empty (falsy) code returns at
once with no mutation and no request; otherwise set the loading flag, clear
the error, and issue the fetch.  The returned Boolean records whether a
request was issued. -/
def loadBoardSync (code : String) : List (Mut BoardData) × Bool :=
  if code = "" then ([], false)
  else ([Mut.setLoading true, Mut.setError ""], true)

/-- Completion phase of `loadBoard`: on a parsed body, store the board; on a
non-ok status or a transport/parse exception, set the error message and null
the board.  The `finally` block clears the loading flag last. -/
def loadBoardComplete : FetchOutcome BoardData → List (Mut BoardData)
  | .ok json => [Mut.setPayload (some json), Mut.setLoading false]
  | .httpError _ =>
      [Mut.setError boardErrorMsg, Mut.setPayload none, Mut.setLoading false]
  | .transportError =>
      [Mut.setError boardErrorMsg, Mut.setPayload none, Mut.setLoading false]

/-- `handleSubmit` of the planning board: a falsy (empty) material code
returns at once; otherwise `loadBoard(materialCode.trim())`. -/
def handleSubmitSync (materialCode : String) : List (Mut BoardData) × Bool :=
  if materialCode = "" then ([], false)
  else loadBoardSync (jsTrim materialCode)

/-! ## Pegging panel, config-based variant (with demo fallback) -/

/-- The invalid-identifier message of the pegging panel. -/
def peggingInvalidMsg : String :=
  "Informe um código de material válido. Ex: \"4011835-AA\"."

/-- The failure message of the pegging panel. -/
def peggingErrorMsg : String :=
  "Não foi possível carregar o Pegging IA para este material. Tente novamente."

/-- Synchronous phase of `handleLoadPegging` (both pegging variants have the
same code up to the `await`): trim the input; on validation failure set the
error message and null the result, issuing no request; otherwise set the
loading flag, clear the error, null the result, and issue the fetch for the
trimmed code (returned as `some code`). -/
def handleLoadPeggingSync (materialInput : String) :
    List (Mut PeggingResult) × Option String :=
  let code := jsTrim materialInput
  if !isValidMaterial code then
    ([Mut.setError peggingInvalidMsg, Mut.setPayload none], none)
  else
    ([Mut.setLoading true, Mut.setError "", Mut.setPayload none], some code)

/-- Completion phase of `handleLoadPegging` in the config-based variant
(demo fallback): on a parsed body store it; on a non-ok status use
`buildDemoResult code` if non-null, else throw into the catch block, which
tries the demo again and otherwise sets the failure message; on a
transport/parse exception the catch block uses the demo (also clearing the
error) if non-null, else sets the failure message.  The `finally` block
clears the loading flag last. -/
def handleLoadPeggingDemoComplete (code : String) :
    FetchOutcome PeggingResult → List (Mut PeggingResult)
  | .ok json => [Mut.setPayload (some json), Mut.setLoading false]
  | .httpError _ =>
      match buildDemoResult code with
      | some demo => [Mut.setPayload (some demo), Mut.setLoading false]
      | none =>
          match buildDemoResult code with
          | some demo =>
              [Mut.setPayload (some demo), Mut.setError "", Mut.setLoading false]
          | none => [Mut.setError peggingErrorMsg, Mut.setLoading false]
  | .transportError =>
      match buildDemoResult code with
      | some demo =>
          [Mut.setPayload (some demo), Mut.setError "", Mut.setLoading false]
      | none => [Mut.setError peggingErrorMsg, Mut.setLoading false]

/-! ## Pegging panel, loopback variant (frontend/src/PeggingIaLite.js,
without fallback) -/

/-- Completion phase of `handleLoadPegging` in the loopback variant: on a
parsed body store it; any failure reaches the catch block, which sets the
failure message (the result stays as the sync phase left it).  The `finally`
block clears the loading flag last. -/
def handleLoadPeggingPlainComplete :
    FetchOutcome PeggingResult → List (Mut PeggingResult)
  | .ok json => [Mut.setPayload (some json), Mut.setLoading false]
  | .httpError _ => [Mut.setError peggingErrorMsg, Mut.setLoading false]
  | .transportError => [Mut.setError peggingErrorMsg, Mut.setLoading false]

/-! ## Capacity panel (frontend/src/CapacityIa.js) -/

/-- One element of the capacity payload's `insights` array. -/
structure CapacityInsight where
  recurso : String
  utilizacao_pct : Option ℚ
  categoria : Option String
  planta : Option String
  recomendacao_curta : Option String
deriving DecidableEq, Repr

/-- A capacity payload. -/
structure CapacityData where
  total_recursos : Nat
  utilizacao_media : Option ℚ
  recursos_acima_100 : Nat
  recursos_abaixo_90 : Nat
  recursos_90_100 : Nat
  insights : List CapacityInsight
  recomendacoes_gerais : List String
deriving DecidableEq, Repr

/-- The failure message of the capacity panel. -/
def capacityErrorMsg : String :=
  "Não foi possível carregar os dados de capacidade da IA."

/-- Synchronous phase of `fetchCapacity` (run on mount): set the loading
flag and clear the error. -/
def fetchCapacitySync : List (Mut CapacityData) :=
  [Mut.setLoading true, Mut.setError ""]

/-- Completion phase of `fetchCapacity`: on a parsed body, `setData(json ||
null)` (a null JSON body stays null); on failure, set the error message and
null the data.  The `finally` block clears the loading flag last. -/
def fetchCapacityComplete :
    FetchOutcome (Option CapacityData) → List (Mut CapacityData)
  | .ok json => [Mut.setPayload json, Mut.setLoading false]
  | .httpError _ =>
      [Mut.setError capacityErrorMsg, Mut.setPayload none, Mut.setLoading false]
  | .transportError =>
      [Mut.setError capacityErrorMsg, Mut.setPayload none, Mut.setLoading false]

/-! ## Single-trigger runs (one trigger, its fetch settling with a given
outcome, no interleaving) -/

/-- One full run of `loadBoard(code)`: the synchronous phase, then — if a
request was issued — the completion phase for the given outcome. -/
def boardFetchRun (s : PanelState BoardData) (code : String)
    (out : FetchOutcome BoardData) : PanelState BoardData :=
  match loadBoardSync code with
  | (muts, false) => applyMuts s muts
  | (muts, true) => applyMuts (applyMuts s muts) (loadBoardComplete out)

/-- One full run of the config-based (demo-fallback) `handleLoadPegging`. -/
def peggingDemoRun (s : PanelState PeggingResult) (materialInput : String)
    (out : FetchOutcome PeggingResult) : PanelState PeggingResult :=
  match handleLoadPeggingSync materialInput with
  | (muts, none) => applyMuts s muts
  | (muts, some code) =>
      applyMuts (applyMuts s muts) (handleLoadPeggingDemoComplete code out)

/-- One full run of the loopback (no-fallback) `handleLoadPegging`. -/
def peggingPlainRun (s : PanelState PeggingResult) (materialInput : String)
    (out : FetchOutcome PeggingResult) : PanelState PeggingResult :=
  match handleLoadPeggingSync materialInput with
  | (muts, none) => applyMuts s muts
  | (muts, some _) =>
      applyMuts (applyMuts s muts) (handleLoadPeggingPlainComplete out)

/-- One full run of `fetchCapacity`. -/
def capacityRun (s : PanelState CapacityData)
    (out : FetchOutcome (Option CapacityData)) : PanelState CapacityData :=
  applyMuts (applyMuts s fetchCapacitySync) (fetchCapacityComplete out)

/-! ## Render-level classification -/

/-- JavaScript falsiness of a string: only the empty string is falsy. -/
def strFalsy (s : String) : Bool := s == ""

/-- The error status banner (`error && <div class="status-box error">`):
rendered exactly when the error message is truthy. -/
def errorBanner {α : Type} (s : PanelState α) : Bool := !strFalsy s.error

/-- `const ordens = Array.isArray(result?.ordens) ? result.ordens : []`. -/
def peggingOrdens : Option PeggingResult → List PeggingOrder
  | some r => r.ordens
  | none => []

/-- `result.sem_ordens` guarded by the truthiness of `result`. -/
def peggingSemOrdens : Option PeggingResult → Bool
  | some r => r.sem_ordens
  | none => false

/-- `nenhumaOrdem` from the pegging panel: the informational "no linked
orders" box is shown when not loading, no error, a result is present, and the
result has no orders (or its `sem_ordens` flag is set). -/
def nenhumaOrdem (s : PanelState PeggingResult) : Bool :=
  !s.loading && strFalsy s.error && s.payload.isSome &&
    (decide ((peggingOrdens s.payload).length = 0) || peggingSemOrdens s.payload)

/-- The pegging submit button is disabled exactly while loading. -/
def peggingButtonDisabled (s : PanelState PeggingResult) : Bool := s.loading

/-! ## Capacity panel rendering -/

/-- `(r?.utilizacao_pct ?? 0)`: the sort key of a capacity insight. -/
def insightKey (r : CapacityInsight) : ℚ := r.utilizacao_pct.getD 0

/-- `sortedResources`: `[...safeInsights].sort((a, b) => (b?.utilizacao_pct
?? 0) - (a?.utilizacao_pct ?? 0))` — a stable sort on a copy of the insights,
larger utilization first (the comparator orders `a` before `b` exactly when
`key b - key a ≤ 0`).  The copy never mutates the payload's own array, which
is automatic in this embedding. -/
def sortedResources (insights : List CapacityInsight) : List CapacityInsight :=
  insights.mergeSort fun a b => decide (insightKey b ≤ insightKey a)

/-- `chartData` of the capacity panel: resource name and utilization (missing
utilization displayed as 0), in sorted order. -/
def capacityChartData (d : CapacityData) : List (String × ℚ) :=
  (sortedResources d.insights).map fun r => (r.recurso, r.utilizacao_pct.getD 0)

/-- The top-level rendering decision of the capacity panel, in source order:
the loading box, else the error box, else the "no capacity information" box
for a null payload, else the content for the payload. -/
inductive CapacityRender where
  | loadingBox
  | errorBox (msg : String)
  | noDataBox
  | content (d : CapacityData)
deriving DecidableEq, Repr

/-- `CapacityIa`'s early returns: loading, then error, then `!data`, then the
full content. -/
def capacityRender (s : PanelState CapacityData) : CapacityRender :=
  if s.loading then .loadingBox
  else if !strFalsy s.error then .errorBox s.error
  else
    match s.payload with
    | none => .noDataBox
    | some d => .content d

/-- Within the capacity content, the chart area shows the informational
"no resources returned" message exactly when `chartData` is empty. -/
def capacityChartEmptyMsg (d : CapacityData) : Bool :=
  decide (capacityChartData d = [])

/-! ## Planning-board trace system (overlapping requests) -/

/-- The planning-board panel together with its in-flight requests: issued
requests are numbered, and `pending` holds the identifiers of requests whose
continuation has not yet run. -/
structure BoardSys where
  ui : PanelState BoardData
  pending : List Nat
  nextId : Nat
deriving DecidableEq, Repr

/-- An event of the planning-board trace: a form submit with the current
material-code input, or the arrival (resolution) of the in-flight request
with a given identifier and outcome. -/
inductive BoardEvent where
  | submit (materialCode : String)
  | resolve (id : Nat) (out : FetchOutcome BoardData)
deriving DecidableEq, Repr

/-- One step of the planning-board trace.  A submit runs `handleSubmit`'s
synchronous phase and registers the issued request; a resolution of a pending
request runs `loadBoard`'s completion continuation — the source keeps no
record of which request is the most recent, so the continuation is applied
whenever its request resolves.  Resolving an unknown identifier is a no-op
(each request resolves at most once). -/
def boardStep (sys : BoardSys) : BoardEvent → BoardSys
  | .submit m =>
      match handleSubmitSync m with
      | (muts, issued) =>
          { ui := applyMuts sys.ui muts
            pending := sys.pending ++ if issued then [sys.nextId] else []
            nextId := sys.nextId + if issued then 1 else 0 }
  | .resolve id out =>
      if id ∈ sys.pending then
        { sys with
            ui := applyMuts sys.ui (loadBoardComplete out)
            pending := sys.pending.erase id }
      else sys

/-- Run a planning-board trace from a state. -/
def boardRun (sys : BoardSys) (evs : List BoardEvent) : BoardSys :=
  evs.foldl boardStep sys

/-- The initial planning-board state: not loading, no error, no board, no
request in flight. -/
def boardInit : BoardSys :=
  { ui := { loading := false, error := "", payload := none }
    pending := []
    nextId := 0 }

/-! ## Pegging trace system (clicks through the panel's own button) -/

/-- The pegging panel together with its in-flight requests (the codes of the
requests issued but not yet settled, oldest first). -/
structure PeggingSys where
  ui : PanelState PeggingResult
  inflight : List String
deriving DecidableEq, Repr

/-- An event of the pegging trace: a click on the load button (with the
material input's current value), or the settlement of the oldest in-flight
request with a given outcome. -/
inductive PeggingEvent where
  | click (input : String)
  | arrive (out : FetchOutcome PeggingResult)
deriving DecidableEq, Repr

/-- One step of the pegging trace.  The button carries `disabled={loading}`,
so a click while loading does nothing; otherwise the click runs
`handleLoadPegging`'s synchronous phase and registers any issued request.
An arrival runs the completion continuation of the oldest in-flight
request. -/
def peggingStep (sys : PeggingSys) : PeggingEvent → PeggingSys
  | .click input =>
      if sys.ui.loading then sys
      else
        match handleLoadPeggingSync input with
        | (muts, req) =>
            { ui := applyMuts sys.ui muts
              inflight := sys.inflight ++ (match req with
                | some code => [code]
                | none => []) }
  | .arrive out =>
      match sys.inflight with
      | [] => sys
      | code :: rest =>
          { ui := applyMuts sys.ui (handleLoadPeggingDemoComplete code out)
            inflight := rest }

/-- Run a pegging trace from a state. -/
def peggingRun (sys : PeggingSys) (evs : List PeggingEvent) : PeggingSys :=
  evs.foldl peggingStep sys

/-- The initial pegging state. -/
def peggingInit : PeggingSys :=
  { ui := { loading := false, error := "", payload := none }
    inflight := [] }

/-! ## Claim C10 -/

/-- **C10.** Submitting an empty or whitespace-only material code on the
planning board is a no-op: the loading flag, error message, previously loaded
board, pending requests and request counter all remain exactly as they were,
and no fetch is issued. -/
theorem boardSubmit_blank_noop (sys : BoardSys) (m : String)
    (h : jsTrim m = "") : boardStep sys (.submit m) = sys := by
  by_cases hm : m = ""
  · simp [boardStep, handleSubmitSync, hm, applyMuts]
  · simp [boardStep, handleSubmitSync, hm, h, loadBoardSync, applyMuts]

/-- A sample previously loaded board. -/
def sampleBoard : BoardData :=
  { material := "OLD-1", cobertura_atual_dias := some 5, criticidade_ia := none,
    rupturas_previstas := 0, horizonte_semanas := 8 }

/-- Witness for `boardSubmit_blank_noop`: a whitespace-only submit leaves a
populated panel untouched. -/
theorem boardSubmit_blank_noop_witness :
    boardStep { ui := { loading := false, error := "", payload := some sampleBoard },
                pending := [], nextId := 3 } (.submit "   ")
      = { ui := { loading := false, error := "", payload := some sampleBoard },
          pending := [], nextId := 3 } :=
  boardSubmit_blank_noop _ "   " (by decide)

/-! ## Claim C5 -/

/-- **C5 counterexample.** The planning board runs no validator: submitting
the invalid identifier `"abc_123"` (it fails `isValidMaterial`) nevertheless
issues a fetch, and the panel transitions to Loading, not to an error
state. -/
theorem board_invalidCode_fetchIssued :
    isValidMaterial "abc_123" = false ∧
    (handleSubmitSync "abc_123").2 = true ∧
    applyMuts { loading := false, error := "", payload := none }
        (handleSubmitSync "abc_123").1
      = { loading := true, error := "", payload := (none : Option BoardData) } := by
  refine ⟨by decide, by decide, by decide⟩

/-- **C5 amended.** The pegging panel runs the validator synchronously on
every trigger before any fetch: a request is only ever issued after the
validator accepts, and on validation failure the panel moves directly to an
error state with the invalid-identifier message, the result cleared, and no
request issued.  The planning board runs no validator: a submit with any
nonempty trimmed code (valid or not) issues a fetch, and a blank code is a
silent no-op rather than an error. -/
theorem validatorGate_amended :
    (∀ input : String, (handleLoadPeggingSync input).2.isSome = true →
        isValidMaterial (jsTrim input) = true) ∧
    (∀ (s : PanelState PeggingResult) (input : String),
        isValidMaterial (jsTrim input) = false →
        (handleLoadPeggingSync input).2 = none ∧
        (applyMuts s (handleLoadPeggingSync input).1).error = peggingInvalidMsg ∧
        (applyMuts s (handleLoadPeggingSync input).1).payload = none ∧
        (applyMuts s (handleLoadPeggingSync input).1).loading = s.loading) ∧
    (∀ m : String, jsTrim m ≠ "" → (handleSubmitSync m).2 = true) ∧
    (∀ m : String, jsTrim m = "" →
        (handleSubmitSync m).2 = false ∧ (handleSubmitSync m).1 = []) := by
  refine ⟨?_, ?_, ?_, ?_⟩
  · intro input h
    by_cases hv : isValidMaterial (jsTrim input) = true
    · exact hv
    · have hb : isValidMaterial (jsTrim input) = false := by
        cases hb2 : isValidMaterial (jsTrim input)
        · rfl
        · exact absurd hb2 hv
      simp [handleLoadPeggingSync, hb] at h
  · intro s input h
    simp [handleLoadPeggingSync, h, applyMuts, applyMut]
  · intro m h
    have hm : m ≠ "" := by
      intro hm
      exact h (by simp [hm, jsTrim, jsTrimList])
    simp [handleSubmitSync, hm, loadBoardSync, h]
  · intro m h
    by_cases hm : m = ""
    · simp [handleSubmitSync, hm]
    · simp [handleSubmitSync, hm, h, loadBoardSync]

/-- Witness for `validatorGate_amended` at concrete inputs: a valid pegging
identifier issues a request, an invalid one is rejected with no request, a
nonempty board code always fetches, a blank board code never does. -/
theorem validatorGate_amended_witness :
    isValidMaterial (jsTrim "4011835-AA") = true ∧
    ((handleLoadPeggingSync "abc_123!").2 = none ∧
      (applyMuts { loading := false, error := "", payload := some DEMO_PEGGING_4011835 }
          (handleLoadPeggingSync "abc_123!").1).error = peggingInvalidMsg) ∧
    (handleSubmitSync "abc_123").2 = true ∧
    (handleSubmitSync "  ").2 = false := by
  refine ⟨validatorGate_amended.1 "4011835-AA" (by decide), ?_, ?_, ?_⟩
  · have h := validatorGate_amended.2.1
      { loading := false, error := "", payload := some DEMO_PEGGING_4011835 }
      "abc_123!" (by decide)
    exact ⟨h.1, h.2.1⟩
  · exact validatorGate_amended.2.2.1 "abc_123" (by decide)
  · exact (validatorGate_amended.2.2.2 "  " (by decide)).1

/-! ## Claim C6 -/

/-- **C6 counterexample.** A new trigger of the planning board does not
discard all prior state: after the synchronous phase of a submit with a valid
code, the previously loaded board is still present (only the error message is
cleared and the loading flag set). -/
theorem board_trigger_keepsPriorPayload :
    (applyMuts { loading := false, error := "", payload := some sampleBoard }
        (handleSubmitSync "4011835-AA").1).payload = some sampleBoard ∧
    some sampleBoard ≠ (none : Option BoardData) := by
  refine ⟨by decide, by decide⟩

/-- **C6 amended.** On every trigger that issues a fetch the panel moves
synchronously to Loading with the error message cleared; the pegging panel
additionally discards the previous result payload before the fetch begins,
while the planning board retains the previously loaded board until the fetch
settles. -/
theorem trigger_transition_amended :
    (∀ (s : PanelState PeggingResult) (input : String),
        isValidMaterial (jsTrim input) = true →
        applyMuts s (handleLoadPeggingSync input).1
          = { loading := true, error := "", payload := none }) ∧
    (∀ (s : PanelState BoardData) (m : String), jsTrim m ≠ "" →
        applyMuts s (handleSubmitSync m).1
          = { loading := true, error := "", payload := s.payload }) := by
  constructor
  · intro s input h
    simp [handleLoadPeggingSync, h, applyMuts, applyMut]
  · intro s m h
    have hm : m ≠ "" := by
      intro hm
      exact h (by simp [hm, jsTrim, jsTrimList])
    simp [handleSubmitSync, hm, loadBoardSync, h, applyMuts, applyMut]

/-- Witness for `trigger_transition_amended` at a concrete trigger from a
populated state. -/
theorem trigger_transition_amended_witness :
    applyMuts { loading := false, error := "old error",
                payload := some DEMO_PEGGING_4011835 }
        (handleLoadPeggingSync "4011835-AA").1
      = { loading := true, error := "", payload := none } ∧
    applyMuts { loading := false, error := "old error", payload := some sampleBoard }
        (handleSubmitSync "4011835-AA").1
      = { loading := true, error := "", payload := some sampleBoard } :=
  ⟨trigger_transition_amended.1 _ "4011835-AA" (by decide),
   trigger_transition_amended.2 _ "4011835-AA" (by decide)⟩

/-! ## Claim C2 -/

/-- A fetch outcome that is a failure (non-ok HTTP status or transport/parse
exception). -/
def FetchOutcome.isFailure {α : Type} : FetchOutcome α → Bool
  | .ok _ => false
  | .httpError _ => true
  | .transportError => true

/-- For a valid identifier the demo provider never returns null (validity
already requires the trimmed identifier to be nonempty). -/
theorem buildDemoResult_isSome_of_valid (c : String)
    (h : isValidMaterial c = true) : ∃ demo, buildDemoResult c = some demo := by
  unfold isValidMaterial at h
  by_cases he : jsTrim c = ""
  · rw [he] at h
    simp at h
    exact absurd h (by decide)
  · unfold buildDemoResult
    simp only [if_neg he]
    by_cases hd : jsTrim c = DEFAULT_MATERIAL <;> simp [hd]

/-! ### Insights panel (IaInsightsPanel) -/

/-- One element of the insights payload's `insights` array (the fields the
renderer reads; any may be absent). -/
structure InsightItem where
  tipo : Option String
  severidade : Option String
  titulo : Option String
  descricao : Option String
  sugestao : Option String
deriving DecidableEq, Repr

/-- The parsed body of `/dashboard/insights`: `data.insights || []` treats a
missing array as empty. -/
structure InsightsPayload where
  insights : Option (List InsightItem)
deriving DecidableEq, Repr

/-- The React state of `IaInsightsPanel`: the insights list (initially
empty), the loading flag, and a nullable error (this panel uses `null`, not
the empty string, for "no error"). -/
structure InsightsState where
  insights : List InsightItem
  loading : Bool
  error : Option String
deriving DecidableEq, Repr

/-- `err.message || fallback`: JavaScript falls back exactly when the
message is the (falsy) empty string. -/
def jsStringOr (m fallback : String) : String :=
  if m = "" then fallback else m

/-- The message of the error thrown on a non-ok insights response. -/
def insightsHttpErrorMsg (status : Nat) : String :=
  "Erro ao buscar insights: " ++ toString status

/-- The fallback message of the insights catch block. -/
def insightsFallbackMsg : String := "Erro inesperado ao carregar insights."

/-- `if (filterTipo) items = items.filter((i) => i.tipo === filterTipo)`:
filtering is skipped for a falsy (empty) filter, and strict equality against
a string never matches an absent `tipo`. -/
def applyTipoFilter (filterTipo : String) (items : List InsightItem) :
    List InsightItem :=
  if filterTipo = "" then items
  else items.filter fun i => i.tipo == some filterTipo

/-- Synchronous phase of `fetchInsights`: set the loading flag and clear the
error to null. -/
def fetchInsightsSync (s : InsightsState) : InsightsState :=
  { s with loading := true, error := none }

/-- Completion phase of `fetchInsights`: on a parsed body store the (possibly
filtered) items; on a non-ok status the thrown error's message reaches the
catch block, which stores `err.message || fallback`; a transport/parse
exception stores its own message (`detail`) with the same fallback.  In every
failure case the insights list is left as it was.  The `finally` block clears
the loading flag last. -/
def fetchInsightsComplete (filterTipo detail : String) (s : InsightsState) :
    FetchOutcome InsightsPayload → InsightsState
  | .ok data =>
      { s with
          insights := applyTipoFilter filterTipo (data.insights.getD [])
          loading := false }
  | .httpError status =>
      { s with
          error := some (jsStringOr (insightsHttpErrorMsg status) insightsFallbackMsg)
          loading := false }
  | .transportError =>
      { s with
          error := some (jsStringOr detail insightsFallbackMsg)
          loading := false }

/-- One full run of `fetchInsights` (with the transport exception's message
as `detail`). -/
def insightsRun (filterTipo detail : String) (s : InsightsState)
    (out : FetchOutcome InsightsPayload) : InsightsState :=
  fetchInsightsComplete filterTipo detail (fetchInsightsSync s) out

/-! ### Overview panel (App's summary fetch) -/

/-- The KPI block of the dashboard summary. -/
structure SummaryKpis where
  total_materiais : Nat
  materiais_risco : Nat
  perc_materiais_risco : ℚ
  materiais_excesso : Nat
  perc_materiais_excesso : ℚ
  total_ops : Nat
  ops_atrasadas : Nat
  perc_ops_atrasadas : ℚ
deriving DecidableEq, Repr

/-- An overview (dashboard summary) payload.  The capacidade, criticos and
ordens_criticas collections are carried opaquely by the renderer and elided,
as with `BoardData`'s series. -/
structure SummaryData where
  kpis : SummaryKpis
  generated_at : String
deriving DecidableEq, Repr

/-- The failure message of the overview fetch. -/
def summaryErrorMsg : String :=
  "Não foi possível carregar os dados do backend."

/-- Synchronous phase of the overview's `fetchData`: it performs no state
mutation before its await (the loading flag starts true from `useState(true)`
and nothing is set before the fetch). -/
def fetchSummarySync : List (Mut SummaryData) := []

/-- Completion phase of the overview's `fetchData`: on a parsed body store it
and clear the error; on failure the catch block sets the failure message and
leaves the data untouched.  The `finally` block clears the loading flag
last. -/
def fetchSummaryComplete : FetchOutcome SummaryData → List (Mut SummaryData)
  | .ok json => [Mut.setPayload (some json), Mut.setError "", Mut.setLoading false]
  | .httpError _ => [Mut.setError summaryErrorMsg, Mut.setLoading false]
  | .transportError => [Mut.setError summaryErrorMsg, Mut.setLoading false]

/-- One full run of the overview's `fetchData`. -/
def summaryRun (s : PanelState SummaryData) (out : FetchOutcome SummaryData) :
    PanelState SummaryData :=
  applyMuts (applyMuts s fetchSummarySync) (fetchSummaryComplete out)

/-- **C2 counterexample.** The repository carries a second, loopback-based
pegging implementation without the demo fallback; under a failed fetch with
the valid identifier `"4011835-AA"` it ends in an error state (message set,
no payload), contradicting "the pegging panel ends in a success state showing
the demo payload ... never in an error state". -/
theorem peggingPlain_failure_errorState :
    isValidMaterial "4011835-AA" = true ∧
    peggingPlainRun { loading := false, error := "", payload := none }
        "4011835-AA" (.httpError 500)
      = { loading := false, error := peggingErrorMsg, payload := none } ∧
    peggingErrorMsg ≠ "" := by
  refine ⟨by decide, by decide, by decide⟩

/-- **C2 amended.** Under a failed fetch (non-ok status or transport/parse
exception) with a valid identifier: the config-based pegging implementation
(the one with the demo fallback) ends in a success state carrying the demo
payload with its error message empty, never in an error state; the
repository's loopback pegging implementation has no fallback and ends in an
error state, as do the planning-board, capacity, insights and overview
panels, which end with an error message set and no substituted payload (the
insights and overview panels leave their previous data untouched). -/
theorem fallbackAsymmetry_amended :
    (∀ (s : PanelState PeggingResult) (input : String)
        (out : FetchOutcome PeggingResult),
        isValidMaterial (jsTrim input) = true → out.isFailure = true →
        ∃ demo, buildDemoResult (jsTrim input) = some demo ∧
          peggingDemoRun s input out
            = { loading := false, error := "", payload := some demo }) ∧
    (∀ (s : PanelState PeggingResult) (input : String)
        (out : FetchOutcome PeggingResult),
        isValidMaterial (jsTrim input) = true → out.isFailure = true →
        peggingPlainRun s input out
          = { loading := false, error := peggingErrorMsg, payload := none }) ∧
    (∀ (s : PanelState BoardData) (code : String) (out : FetchOutcome BoardData),
        code ≠ "" → out.isFailure = true →
        boardFetchRun s code out
          = { loading := false, error := boardErrorMsg, payload := none }) ∧
    (∀ (s : PanelState CapacityData) (out : FetchOutcome (Option CapacityData)),
        out.isFailure = true →
        capacityRun s out
          = { loading := false, error := capacityErrorMsg, payload := none }) ∧
    (∀ (filterTipo detail : String) (s : InsightsState)
        (out : FetchOutcome InsightsPayload),
        out.isFailure = true →
        (insightsRun filterTipo detail s out).loading = false ∧
        (insightsRun filterTipo detail s out).insights = s.insights ∧
        ∃ msg, (insightsRun filterTipo detail s out).error = some msg ∧
          msg ≠ "") ∧
    (∀ (s : PanelState SummaryData) (out : FetchOutcome SummaryData),
        out.isFailure = true →
        (summaryRun s out).loading = false ∧
        (summaryRun s out).error = summaryErrorMsg ∧
        (summaryRun s out).payload = s.payload) := by
  refine ⟨?_, ?_, ?_, ?_, ?_, ?_⟩
  · intro s input out hv hf
    obtain ⟨demo, hdemo⟩ := buildDemoResult_isSome_of_valid _ hv
    refine ⟨demo, hdemo, ?_⟩
    cases out with
    | ok j => simp [FetchOutcome.isFailure] at hf
    | httpError st =>
        simp [peggingDemoRun, handleLoadPeggingSync, hv,
          handleLoadPeggingDemoComplete, hdemo, applyMuts, applyMut]
    | transportError =>
        simp [peggingDemoRun, handleLoadPeggingSync, hv,
          handleLoadPeggingDemoComplete, hdemo, applyMuts, applyMut]
  · intro s input out hv hf
    cases out with
    | ok j => simp [FetchOutcome.isFailure] at hf
    | httpError st =>
        simp [peggingPlainRun, handleLoadPeggingSync, hv,
          handleLoadPeggingPlainComplete, applyMuts, applyMut]
    | transportError =>
        simp [peggingPlainRun, handleLoadPeggingSync, hv,
          handleLoadPeggingPlainComplete, applyMuts, applyMut]
  · intro s code out hc hf
    cases out with
    | ok j => simp [FetchOutcome.isFailure] at hf
    | httpError st =>
        simp [boardFetchRun, loadBoardSync, hc, loadBoardComplete,
          applyMuts, applyMut]
    | transportError =>
        simp [boardFetchRun, loadBoardSync, hc, loadBoardComplete,
          applyMuts, applyMut]
  · intro s out hf
    cases out with
    | ok j => simp [FetchOutcome.isFailure] at hf
    | httpError st =>
        simp [capacityRun, fetchCapacitySync, fetchCapacityComplete,
          applyMuts, applyMut]
    | transportError =>
        simp [capacityRun, fetchCapacitySync, fetchCapacityComplete,
          applyMuts, applyMut]
  · intro filterTipo detail s out hf
    cases out with
    | ok j => simp [FetchOutcome.isFailure] at hf
    | httpError st =>
        refine ⟨rfl, rfl, jsStringOr (insightsHttpErrorMsg st) insightsFallbackMsg,
          rfl, ?_⟩
        unfold jsStringOr
        split
        · decide
        · next h => exact h
    | transportError =>
        refine ⟨rfl, rfl, jsStringOr detail insightsFallbackMsg, rfl, ?_⟩
        unfold jsStringOr
        split
        · decide
        · next h => exact h
  · intro s out hf
    cases out with
    | ok j => simp [FetchOutcome.isFailure] at hf
    | httpError st =>
        exact ⟨rfl, rfl, rfl⟩
    | transportError =>
        exact ⟨rfl, rfl, rfl⟩

/-- Witness for `fallbackAsymmetry_amended`: the concrete identifier
`"4011835-AA"` under a 500 response (and a transport failure for the board),
from each panel's initial state. -/
theorem fallbackAsymmetry_amended_witness :
    (∃ demo, buildDemoResult (jsTrim "4011835-AA") = some demo ∧
      peggingDemoRun { loading := false, error := "", payload := none }
          "4011835-AA" (.httpError 500)
        = { loading := false, error := "", payload := some demo }) ∧
    peggingPlainRun { loading := false, error := "", payload := none }
        "4011835-AA" (.httpError 500)
      = { loading := false, error := peggingErrorMsg, payload := none } ∧
    boardFetchRun { loading := false, error := "", payload := none }
        "4011835-AA" .transportError
      = { loading := false, error := boardErrorMsg, payload := none } ∧
    capacityRun { loading := false, error := "", payload := none }
        (.httpError 503)
      = { loading := false, error := capacityErrorMsg, payload := none } ∧
    (∃ msg, (insightsRun "" "" { insights := [], loading := true, error := none }
        (.httpError 500)).error = some msg ∧ msg ≠ "") ∧
    (summaryRun { loading := true, error := "", payload := none }
        .transportError).error = summaryErrorMsg :=
  ⟨fallbackAsymmetry_amended.1 _ "4011835-AA" _ (by decide) rfl,
   fallbackAsymmetry_amended.2.1 _ "4011835-AA" _ (by decide) rfl,
   fallbackAsymmetry_amended.2.2.1 _ "4011835-AA" _ (by decide) rfl,
   fallbackAsymmetry_amended.2.2.2.1 _ _ rfl,
   (fallbackAsymmetry_amended.2.2.2.2.1 "" ""
     { insights := [], loading := true, error := none } (.httpError 500) rfl).2.2,
   (fallbackAsymmetry_amended.2.2.2.2.2
     { loading := true, error := "", payload := none } .transportError rfl).2.1⟩

/-! ## Claim C9 -/

/-- **C9.** The capacity panel displays the resource insights sorted in
non-increasing order of `utilizacao_pct` (a missing utilization counts as 0):
the sorted list is a permutation of the payload's insights, it is pairwise
non-increasing under that key, and the derived chart rows are pairwise
non-increasing in their utilization values.  The sort operates on a copy
(`[...safeInsights]`), so the payload's own array is untouched — automatic in
this embedding, where `sortedResources` is a pure function of its input. -/
theorem sortedResources_spec (d : CapacityData) :
    (sortedResources d.insights).Perm d.insights ∧
    (sortedResources d.insights).Pairwise
      (fun a b => insightKey b ≤ insightKey a) ∧
    (capacityChartData d).Pairwise (fun p q => q.2 ≤ p.2) := by
  have hsorted : (sortedResources d.insights).Pairwise
      (fun a b => (decide (insightKey b ≤ insightKey a)) = true) := by
    apply List.sorted_mergeSort
    · intro a b c hab hbc
      simp only [decide_eq_true_eq] at hab hbc ⊢
      exact le_trans hbc hab
    · intro a b
      rcases le_total (insightKey a) (insightKey b) with h | h <;> simp [h]
  have hkey : (sortedResources d.insights).Pairwise
      (fun a b => insightKey b ≤ insightKey a) :=
    hsorted.imp fun h => of_decide_eq_true h
  refine ⟨List.mergeSort_perm _ _, hkey, ?_⟩
  rw [capacityChartData, List.pairwise_map]
  exact hkey.imp fun h => h

/-! ## Claim C7 -/

/-- The sorted insights are empty exactly when the payload's insights are. -/
theorem sortedResources_eq_nil_iff (xs : List CapacityInsight) :
    sortedResources xs = [] ↔ xs = [] := by
  constructor
  · intro h
    have hl := congrArg List.length h
    rw [sortedResources, List.length_mergeSort] at hl
    exact List.length_eq_zero.mp hl
  · intro h
    rw [h]
    simp [sortedResources]

/-- A successful pegging payload with zero orders. -/
def emptyPeggingResult : PeggingResult :=
  { material := "4011835-AA", descricao := "Conjunto Airbag – Volante",
    cobertura_atual_dias := 0, total_ordens_vinculadas := 0,
    ordens_atrasadas := 0, maior_atraso_dias := 0, ordens := [] }

/-- **C7.** After a successful fetch, the pegging panel shows the
informational "no linked orders" box exactly when the payload's empty
predicate holds (zero orders or `sem_ordens`), and renders no error banner
either way — so the Empty classification is distinct from Success with
nonzero data only through the payload, never through an error.  The capacity
panel, after a successful fetch, never renders the error box; a null payload
renders the informational "no capacity information" box, and a non-null
payload renders the content, whose chart area shows the informational "no
resources" message exactly when the insights are empty. -/
theorem emptyClassification (j : PeggingResult) (input : String)
    (s : PanelState PeggingResult) (c : Option CapacityData)
    (sc : PanelState CapacityData)
    (hv : isValidMaterial (jsTrim input) = true) :
    nenhumaOrdem (peggingDemoRun s input (.ok j))
        = (decide (j.ordens.length = 0) || j.sem_ordens) ∧
    errorBanner (peggingDemoRun s input (.ok j)) = false ∧
    (∀ msg, capacityRender (capacityRun sc (.ok c)) ≠ .errorBox msg) ∧
    (c = none → capacityRender (capacityRun sc (.ok c)) = .noDataBox) ∧
    (∀ d, c = some d →
      capacityRender (capacityRun sc (.ok c)) = .content d ∧
      (capacityChartEmptyMsg d = true ↔ d.insights = [])) := by
  have hfin : peggingDemoRun s input (.ok j)
      = { loading := false, error := "", payload := some j } := by
    simp [peggingDemoRun, handleLoadPeggingSync, hv,
      handleLoadPeggingDemoComplete, applyMuts, applyMut]
  have hcap : capacityRun sc (.ok c)
      = { loading := false, error := "", payload := c } := by
    simp [capacityRun, fetchCapacitySync, fetchCapacityComplete,
      applyMuts, applyMut]
  refine ⟨?_, ?_, ?_, ?_, ?_⟩
  · rw [hfin]
    rfl
  · rw [hfin]
    rfl
  · intro msg
    rw [hcap]
    cases c <;> simp [capacityRender, strFalsy]
  · intro h
    rw [hcap, h]
    rfl
  · intro d h
    rw [hcap, h]
    refine ⟨rfl, ?_⟩
    rw [capacityChartEmptyMsg, decide_eq_true_eq, capacityChartData,
      List.map_eq_nil_iff, sortedResources_eq_nil_iff]

/-- Witness for `emptyClassification`: a zero-order payload for the pegging
panel and a null capacity body, from the initial states. -/
theorem emptyClassification_witness :
    nenhumaOrdem (peggingDemoRun { loading := false, error := "", payload := none }
        "4011835-AA" (.ok emptyPeggingResult)) = true ∧
    errorBanner (peggingDemoRun { loading := false, error := "", payload := none }
        "4011835-AA" (.ok emptyPeggingResult)) = false ∧
    capacityRender (capacityRun { loading := false, error := "", payload := none }
        (.ok none)) = .noDataBox := by
  have h := emptyClassification emptyPeggingResult "4011835-AA"
    { loading := false, error := "", payload := none } none
    { loading := false, error := "", payload := none } (by decide)
  refine ⟨?_, h.2.1, h.2.2.2.1 rfl⟩
  rw [h.1]
  decide

/-! ## Claim C8 -/

/-- The invariant relating the pegging button and the in-flight requests: at
most one request is pending, and whenever one is pending the loading flag is
set (so the disabled button swallows clicks). -/
def PeggingInv (sys : PeggingSys) : Prop :=
  sys.inflight.length ≤ 1 ∧ (sys.inflight ≠ [] → sys.ui.loading = true)

/-- The invariant is preserved by every pegging event. -/
theorem peggingStep_preserves_inv (sys : PeggingSys) (ev : PeggingEvent)
    (h : PeggingInv sys) : PeggingInv (peggingStep sys ev) := by
  obtain ⟨hlen, hload⟩ := h
  cases ev with
  | click input =>
      by_cases hl : sys.ui.loading = true
      · simpa [peggingStep, hl] using ⟨hlen, hload⟩
      · have hempty : sys.inflight = [] := by
          by_contra hne
          exact hl (hload hne)
        by_cases hv : isValidMaterial (jsTrim input) = true
        · refine ⟨?_, ?_⟩ <;>
            simp [peggingStep, hl, handleLoadPeggingSync, hv, hempty,
              applyMuts, applyMut]
        · have hb : isValidMaterial (jsTrim input) = false := by
            cases hb2 : isValidMaterial (jsTrim input)
            · rfl
            · exact absurd hb2 hv
          refine ⟨?_, ?_⟩ <;>
            simp [peggingStep, hl, handleLoadPeggingSync, hb, hempty,
              applyMuts, applyMut]
  | arrive out =>
      cases hif : sys.inflight with
      | nil => simpa [peggingStep, hif] using ⟨hlen, hload⟩
      | cons code rest =>
          have hrest : rest = [] := by
            rw [hif] at hlen
            simp at hlen
            exact hlen
          refine ⟨?_, ?_⟩ <;> simp [peggingStep, hif, hrest]

/-- The invariant holds at every state reachable from a state satisfying
it. -/
theorem peggingRun_preserves_inv (evs : List PeggingEvent) :
    ∀ sys : PeggingSys, PeggingInv sys → PeggingInv (peggingRun sys evs) := by
  induction evs with
  | nil => intro sys h; exact h
  | cons ev rest ih =>
      intro sys h
      exact ih (peggingStep sys ev) (peggingStep_preserves_inv sys ev h)

/-- **C8.** While a pegging fetch is in flight the load button is disabled,
so a click is a no-op; consequently, along every event trace of clicks and
arrivals from the initial state, at most one pegging request is ever in
flight. -/
theorem pegging_singleInflight :
    (∀ (sys : PeggingSys) (input : String),
        peggingButtonDisabled sys.ui = true →
        peggingStep sys (.click input) = sys) ∧
    (∀ evs : List PeggingEvent,
        (peggingRun peggingInit evs).inflight.length ≤ 1) := by
  constructor
  · intro sys input h
    simp [peggingStep, peggingButtonDisabled] at h ⊢
    intro hl
    exact absurd h (by simp [hl])
  · intro evs
    exact (peggingRun_preserves_inv evs peggingInit
      ⟨by simp [peggingInit], by simp [peggingInit]⟩).1

/-- Witness for `pegging_singleInflight`: a click while a request is in
flight changes nothing, and a concrete click–click–arrive trace keeps at
most one request in flight. -/
theorem pegging_singleInflight_witness :
    peggingStep { ui := { loading := true, error := "", payload := none },
                  inflight := ["4011835-AA"] } (.click "XYZ-9")
      = { ui := { loading := true, error := "", payload := none },
          inflight := ["4011835-AA"] } ∧
    (peggingRun peggingInit
        [.click "4011835-AA", .click "XYZ-9",
         .arrive (.ok DEMO_PEGGING_4011835)]).inflight.length ≤ 1 :=
  ⟨pegging_singleInflight.1 _ "XYZ-9" rfl,
   pegging_singleInflight.2 _⟩

/-! ## Claim C1 -/

/-- The board payload returned for the first (superseded) request. -/
def boardPayloadA : BoardData :=
  { material := "A", cobertura_atual_dias := some 2, criticidade_ia := some 90,
    rupturas_previstas := 1, horizonte_semanas := 8 }

/-- The board payload returned for the second (most recent) request. -/
def boardPayloadB : BoardData :=
  { material := "B", cobertura_atual_dias := some 30, criticidade_ia := some 10,
    rupturas_previstas := 0, horizonte_semanas := 8 }

/-- A schedule in which a second submit supersedes an in-flight request and
the superseded request's response arrives last: submit "A" (request 0),
submit "B" while request 0 is still in flight (request 1), request 1
resolves, then request 0 resolves. -/
def staleSchedule : List BoardEvent :=
  [ .submit "A",
    .submit "B",
    .resolve 1 (.ok boardPayloadB),
    .resolve 0 (.ok boardPayloadA) ]

/-- **C1 (refuted by the code).** `loadBoard` keeps no record of which
request is the most recent: running `staleSchedule` from the initial state,
the stale request 0's payload is applied on arrival after the most recent
request 1's payload, so the final visible board is request 0's payload — with
both requests resolved and nothing left in flight.  The claimed behaviour
(only the most recently issued request's outcome ever updates the panel's
visible state) would require the final board to be `boardPayloadB`. -/
theorem board_staleResultApplied :
    (boardRun boardInit staleSchedule).ui.payload = some boardPayloadA ∧
    boardPayloadA ≠ boardPayloadB ∧
    (boardRun boardInit staleSchedule).pending = [] ∧
    (boardRun boardInit staleSchedule).nextId = 2 := by
  refine ⟨by decide, by decide, by decide, by decide⟩
